import Mathlib

/-!
# Verification of `proxy_checker.py`

A shallow embedding of the proxy health-check engine in `src/proxy_checker.py`
(parsing, TLS-freeze stall detection, probe classification, dispatching), with
theorems checking the natural-language specification against the code.

Modelling conventions:
* Network effects are abstracted as explicit environment values describing what
  the transport delivered to each `await` point (chunk sizes, status codes,
  raised exceptions).  The Python functions then become total Lean functions of
  those environments, translated control-path by control-path from the source.
* Wall-clock readings (`time.perf_counter` differences) are modelled as `Rat`
  parameters: the code only stores them, never branches on them.
* Python f-string error messages are modelled by the inductive `ErrorDetail`,
  one constructor per distinct message construction site, carrying the same
  dynamic data as the corresponding f-string.
* `asyncio` scheduling with `asyncio.Semaphore(concurrency)` is modelled as an
  explicit transition system (`stepSched`): acquire before the probe starts,
  release after it finishes, regardless of outcome.
-/

namespace ProxyChecker

/-! ## Data model: `ProxyStatus`, `ProxyResult`, `ProxyConfig` -/

/-- The `ProxyStatus` enum of the source (the display strings attached to each
member are only used by the reporter and are not modelled). -/
inductive ProxyStatus
  | OK
  | TLS_FREEZE
  | TIMEOUT
  | ERROR
  | AUTH_FAILED
deriving DecidableEq, Repr

/-- Error-message constructions of the source, one constructor per f-string
site, carrying the dynamic data interpolated there. -/
inductive ErrorDetail
  | proxyAuthFailed
  | failedToGetIp
  | tlsFreezeAt (bytes : Nat)
  | connectionTimeout (timeoutTotal : Rat)
  | proxyConnectionError (cause : String)
  | clientError (cause : String)
  | unknownError (cause : String)
deriving DecidableEq, Repr

/-- The `ProxyConfig` dataclass.  The port is an unbounded integer because the
source stores the raw result of Python `int(port_str)`. -/
structure ProxyConfig where
  host : String
  port : Int
  username : String
  password : String
deriving DecidableEq, Repr

/-- Display form `f"\x7bself.host\x7d:\x7bself.port\x7d"` from
`ProxyConfig.__str__`. -/
def ProxyConfig.str (p : ProxyConfig) : String :=
  p.host ++ ":" ++ toString p.port

/-- The `ProxyResult` dataclass, fields in source order with the source's
`None` defaults. -/
structure ProxyResult where
  proxy : String
  status : ProxyStatus
  response_time : Option Rat
  bytes_before_freeze : Option Nat
  error_message : Option ErrorDetail
  ip_address : Option String
deriving DecidableEq, Repr

/-! ## TLS freeze detection constants (lines 94-98 of the source) -/

def FREEZE_MIN_BYTES : Nat := 14 * 1024

def FREEZE_MAX_BYTES : Nat := 25 * 1024

def FREEZE_STALL_TIMEOUT : Rat := 5

def CHUNK_SIZE : Nat := 1024

/-! ## `check_tls_freeze` -/

/-- How the stage-2 chunk-read loop of `check_tls_freeze` terminates, after the
successful reads recorded separately as a list of chunk sizes:
* `eofRead`: a read returned an empty chunk (`if not chunk`);
* `stallTimeout`: `asyncio.wait_for` raised `asyncio.TimeoutError` (per-chunk
  stall), caught by the inner `except` of the loop;
* `overallTimeout`: the overall `ClientTimeout` deadline raised
  `asyncio.TimeoutError`, caught by a `except asyncio.TimeoutError` clause
  performing the same freeze-window check;
* `excOther`: a non-timeout exception escaped the read, caught by the final
  `except Exception`. -/
inductive StreamEnd
  | eofRead
  | stallTimeout
  | overallTimeout
  | excOther
deriving DecidableEq, Repr

/-- What the transport delivered to the single `session.get` of
`check_tls_freeze`: either a response (HTTP status, successful chunk sizes,
and how the read loop ended), or an exception before the loop was entered
(`connTimeout` for `asyncio.TimeoutError`, `connOther` for anything else),
at which point `downloaded_bytes` is still `0`. -/
inductive Fetch2
  | ok (status : Nat) (chunks : List Nat) (ending : StreamEnd)
  | connTimeout
  | connOther
deriving DecidableEq, Repr

/-- The `while True` chunk loop of `check_tls_freeze` (lines 126-153):
accumulate `downloaded_bytes` over the delivered chunks (an empty chunk means
clean completion), then classify the recorded loop ending.  Both the
per-chunk-stall handler and the overall-timeout handler evaluate the same
freeze window `FREEZE_MIN_BYTES ≤ total ≤ FREEZE_MAX_BYTES`. -/
def freezeLoop : Nat → List Nat → StreamEnd → Bool × Nat
  | downloaded, [], ending =>
    match ending with
    | .eofRead => (false, downloaded)
    | .stallTimeout =>
      if FREEZE_MIN_BYTES ≤ downloaded ∧ downloaded ≤ FREEZE_MAX_BYTES then
        (true, downloaded)
      else
        (false, downloaded)
    | .overallTimeout =>
      if FREEZE_MIN_BYTES ≤ downloaded ∧ downloaded ≤ FREEZE_MAX_BYTES then
        (true, downloaded)
      else
        (false, downloaded)
    | .excOther => (false, downloaded)
  | downloaded, c :: cs, ending =>
    if c = 0 then (false, downloaded)
    else freezeLoop (downloaded + c) cs ending

/-- `check_tls_freeze` (lines 101-153): returns `(is_frozen, bytes_downloaded)`.
A non-200 response returns `(False, 0)` without reading the body; an
`asyncio.TimeoutError` raised before the loop hits the outer handler with
`downloaded_bytes = 0`; any other pre-loop exception returns `(False, 0)`. -/
def check_tls_freeze : Fetch2 → Bool × Nat
  | .ok status chunks ending =>
    if status ≠ 200 then (false, 0)
    else freezeLoop 0 chunks ending
  | .connTimeout =>
    if FREEZE_MIN_BYTES ≤ 0 ∧ 0 ≤ FREEZE_MAX_BYTES then (true, 0)
    else (false, 0)
  | .connOther => (false, 0)

/-! ## `check_proxy` -/

/-- Outcome of `await response.json()` followed by `data.get(ip_key)` at a
stage-1 endpoint: either the JSON call raised (swallowed by the loop's
`except Exception: continue`), or it produced a dict whose `ip_key` lookup
gave `ip` (possibly absent). -/
inductive JsonOutcome
  | raises
  | fields (ip : Option String)
deriving DecidableEq, Repr

/-- Outcome of one `session.get` in the stage-1 identity loop: either any
exception during the request (connection error, timeout, ...), or a response
with an HTTP status together with what the JSON body would yield if read. -/
inductive EndpointOutcome
  | exc
  | resp (status : Nat) (json : JsonOutcome)
deriving DecidableEq, Repr

/-- Result of the stage-1 `for test_url, ip_key in test_urls` loop
(lines 191-210): either an early `return` with `AUTH_FAILED` on a 407
response, or the loop finishes (by `break` on a 200 response or by
exhaustion) with the final value of `ip_address`. -/
inductive Stage1Outcome
  | authFailed
  | finished (ip : Option String)
deriving DecidableEq, Repr

/-- The stage-1 loop, one `EndpointOutcome` per attempted endpoint in order:
an exception continues to the next endpoint; a 407 returns `AUTH_FAILED`
immediately; a 200 whose JSON parses breaks with the looked-up value (even
when the key is absent); any other status falls through to the next
endpoint. -/
def stage1Loop : List EndpointOutcome → Stage1Outcome
  | [] => .finished none
  | .exc :: rest => stage1Loop rest
  | .resp status json :: rest =>
    if status = 407 then .authFailed
    else if status = 200 then
      match json with
      | .raises => stage1Loop rest
      | .fields ip => .finished ip
    else stage1Loop rest

/-- Exceptions that reach the outer `try` of `check_proxy` (lines 243-266),
in the order of its `except` clauses, carrying the interpolated cause text. -/
inductive OuterExc
  | timeoutErr
  | proxyConnErr (msg : String)
  | clientErr (msg : String)
  | otherErr (msg : String)
deriving DecidableEq, Repr

/-- Endpoint outcomes on which the stage-1 loop moves on to the next endpoint
without breaking or returning: an exception, a non-407 non-200 status, or a
200 whose JSON read raises. -/
def continuesB : EndpointOutcome → Bool
  | .exc => true
  | .resp status .raises => status ≠ 407
  | .resp status (.fields _) => status ≠ 407 ∧ status ≠ 200

/-- What the environment delivered to one `check_proxy` run: either an
exception escaping to the outer handlers of lines 243-266 (`timeoutErr` for
`asyncio.TimeoutError`, `proxyConnErr` for `aiohttp.ClientProxyConnectionError`
with its message, `clientErr` for other `aiohttp.ClientError`, `otherErr` for
anything else), or a full run of the session body with the stage-1 endpoint
outcomes and the stage-2 fetch outcome. -/
inductive ProbeEnv
  | raises (e : OuterExc)
  | runs (stage1 : List EndpointOutcome) (stage2 : Fetch2)
deriving DecidableEq, Repr

/-- `check_proxy` (lines 156-266), as a function of the proxy, the delivered
environment, the measured stage-1 elapsed time and `timeout_total`.  Each
branch constructs the exact `ProxyResult` of the corresponding `return`
statement (fields: proxy, status, response_time, bytes_before_freeze,
error_message, ip_address). -/
def check_proxy (p : ProxyConfig) (env : ProbeEnv) (elapsed : Rat)
    (timeout_total : Rat) : ProxyResult :=
  match env with
  | .raises .timeoutErr =>
    ⟨p.str, .TIMEOUT, none, none, some (.connectionTimeout timeout_total), none⟩
  | .raises (.proxyConnErr m) =>
    ⟨p.str, .ERROR, none, none, some (.proxyConnectionError m), none⟩
  | .raises (.clientErr m) =>
    ⟨p.str, .ERROR, none, none, some (.clientError m), none⟩
  | .raises (.otherErr m) =>
    ⟨p.str, .ERROR, none, none, some (.unknownError m), none⟩
  | .runs s1 s2 =>
    match stage1Loop s1 with
    | .authFailed =>
      ⟨p.str, .AUTH_FAILED, none, none, some .proxyAuthFailed, none⟩
    | .finished none =>
      ⟨p.str, .ERROR, none, none, some .failedToGetIp, none⟩
    | .finished (some ip) =>
      let r := check_tls_freeze s2
      if r.1 then
        ⟨p.str, .TLS_FREEZE, some elapsed, some r.2, some (.tlsFreezeAt r.2),
         some ip⟩
      else
        ⟨p.str, .OK, some elapsed, none, none, some ip⟩

/-! ## `parse_proxy_line`

String manipulation is modelled over `List Char` with functions mirroring the
Python string methods used by the source (`str.strip`, `str.split(sep)` for a
one-character separator, `str.startswith`, `int(str)`). -/

/-- Characters removed by Python `str.strip()` with no argument (the ASCII
whitespace relevant to proxy-list files). -/
def isPySpace (c : Char) : Bool :=
  c = ' ' ∨ c = '\t' ∨ c = '\n' ∨ c = '\x0d' ∨ c = '\x0b' ∨ c = '\x0c'

/-- Python `str.strip()`: drop leading and trailing whitespace. -/
def pyStrip (cs : List Char) : List Char :=
  ((cs.dropWhile isPySpace).reverse.dropWhile isPySpace).reverse

/-- Python `str.split(sep)` for a one-character separator: split at every
occurrence, keeping empty fields. -/
def splitOnChar (sep : Char) : List Char → List (List Char)
  | [] => [[]]
  | c :: cs =>
    if c = sep then [] :: splitOnChar sep cs
    else
      match splitOnChar sep cs with
      | [] => [[c]]
      | s :: rest => (c :: s) :: rest

/-- Digit run of a Python integer literal after the optional sign: decimal
digits with single underscores allowed only between digits.  `acc` is the
value of the digits consumed so far. -/
def pyDigitsAux : Nat → List Char → Option Nat
  | acc, [] => some acc
  | acc, c :: cs =>
    if c.isDigit then pyDigitsAux (acc * 10 + (c.toNat - 48)) cs
    else if c = '_' then
      match cs with
      | [] => none
      | d :: cs2 =>
        if d.isDigit then pyDigitsAux (acc * 10 + (d.toNat - 48)) cs2
        else none
    else none

/-- Nonempty digit run starting with a digit. -/
def pyDigits : List Char → Option Nat
  | [] => none
  | c :: cs => if c.isDigit then pyDigitsAux (c.toNat - 48) cs else none

/-- Python `int(s)` for base 10: strip whitespace, optional single sign,
then a digit run; `none` models the `ValueError`. -/
def pyInt (cs : List Char) : Option Int :=
  match pyStrip cs with
  | '+' :: rest => (pyDigits rest).map Int.ofNat
  | '-' :: rest => (pyDigits rest).map (fun n => -(n : Int))
  | rest => (pyDigits rest).map Int.ofNat

/-- Test for the comment marker after stripping (`line.startswith('#')`). -/
def startsWithHash : List Char → Bool
  | '#' :: _ => true
  | _ => false

/-- `parse_proxy_line` (lines 56-74).  Returns the parsed config (or `none`)
together with the list of diagnostic lines printed: empty for a successful
parse and for a blank/comment line, one line for a malformed field count or
a bad port. -/
def parse_proxy_line (line : String) : Option ProxyConfig × List String :=
  let stripped := pyStrip line.toList
  if stripped = [] ∨ startsWithHash stripped then (none, [])
  else
    match splitOnChar ':' stripped with
    | [host, portStr, username, password] =>
      match pyInt portStr with
      | some port =>
        (some ⟨String.mk host, port, String.mk username, String.mk password⟩, [])
      | none => (none, [String.mk ("Invalid port: ".toList ++ portStr)])
    | _ => (none, [String.mk ("Invalid proxy format: ".toList ++ stripped)])

/-! ## `check_proxies` (dispatcher) -/

/-- The body of `check_proxies`: one `check_with_semaphore` task per proxy, in
list order.  `asyncio.gather(*tasks)` resolves to the results in the order of
the `tasks` list, so the dispatcher is an indexed map; the environment and
measured time of the task at index `i` are `envOf i` and `rtOf i`. -/
def check_proxies_go (envOf : Nat → ProbeEnv) (rtOf : Nat → Rat)
    (timeout_total : Rat) : Nat → List ProxyConfig → List ProxyResult
  | _, [] => []
  | i, p :: ps =>
    check_proxy p (envOf i) (rtOf i) timeout_total
      :: check_proxies_go envOf rtOf timeout_total (i + 1) ps

/-- `check_proxies` (lines 296-323): run `check_proxy` for every config under
the admission gate and gather the results in submission order. -/
def check_proxies (proxies : List ProxyConfig) (envOf : Nat → ProbeEnv)
    (rtOf : Nat → Rat) (timeout_total : Rat) : List ProxyResult :=
  check_proxies_go envOf rtOf timeout_total 0 proxies

/-! ## Admission gate (`asyncio.Semaphore(concurrency)`)

The semaphore discipline of `check_with_semaphore` — `async with semaphore`
acquired before the probe starts and released when the block exits, whatever
the outcome — is modelled as a transition system over the phases of the
submitted tasks and the semaphore's available-permit count. -/

/-- Phase of one submitted probe task with respect to the admission gate. -/
inductive TaskPhase
  | pending
  | running
  | done
deriving DecidableEq, Repr

/-- Scheduler state: remaining semaphore permits and the phase of each task. -/
structure SchedState where
  available : Nat
  tasks : List TaskPhase
deriving DecidableEq, Repr

/-- Scheduler events: task `i` acquires the semaphore and starts its probe, or
task `i` finishes its probe and releases the semaphore. -/
inductive SchedStep
  | acquire (i : Nat)
  | release (i : Nat)
deriving DecidableEq, Repr

/-- One scheduler transition; `none` when the event is not enabled (task not
in the required phase, or no permit left for an acquire). -/
def stepSched (s : SchedState) : SchedStep → Option SchedState
  | .acquire i =>
    match s.tasks[i]? with
    | some .pending =>
      if s.available = 0 then none
      else some ⟨s.available - 1, s.tasks.set i .running⟩
    | _ => none
  | .release i =>
    match s.tasks[i]? with
    | some .running => some ⟨s.available + 1, s.tasks.set i .done⟩
    | _ => none

/-- Run a list of scheduler events from a state. -/
def runSched (s : SchedState) : List SchedStep → Option SchedState
  | [] => some s
  | a :: rest =>
    match stepSched s a with
    | some s2 => runSched s2 rest
    | none => none

/-- Number of probes currently in flight. -/
def runningCount (ts : List TaskPhase) : Nat :=
  (ts.filter (fun t => t = TaskPhase.running)).length

/-- Initial state for a batch of `k` probes under concurrency limit `n`:
`asyncio.Semaphore(n)` full, every task pending. -/
def initSched (n k : Nat) : SchedState :=
  ⟨n, List.replicate k .pending⟩

/-! ## Theorems -/

/-- When every delivered chunk is nonempty, the loop accumulates the full sum
before classifying the ending. -/
lemma freezeLoop_all_pos (d : Nat) (chunks : List Nat) (ending : StreamEnd)
    (h : ∀ c ∈ chunks, c ≠ 0) :
    freezeLoop d chunks ending = freezeLoop (d + chunks.sum) [] ending := by
  induction chunks generalizing d with
  | nil => simp
  | cons c cs ih =>
    have hc : c ≠ 0 := h c (List.mem_cons_self c cs)
    have hcs : ∀ x ∈ cs, x ≠ 0 := fun x hx => h x (List.mem_cons_of_mem c hx)
    rw [freezeLoop, if_neg hc, ih (d + c) hcs, List.sum_cons]
    ring_nf

/-- Claim C1: in a stage-2 probe whose chunk loop ends with a per-chunk stall
timeout (all delivered chunks nonempty, HTTP 200), the stream is classified
frozen iff the accumulated total lies in `[14336, 25600]`, and the reported
byte count is that total. -/
theorem c1_stall_window (chunks : List Nat) (h : ∀ c ∈ chunks, c ≠ 0) :
    check_tls_freeze (.ok 200 chunks .stallTimeout)
      = (decide (FREEZE_MIN_BYTES ≤ chunks.sum ∧ chunks.sum ≤ FREEZE_MAX_BYTES),
         chunks.sum) := by
  rw [check_tls_freeze, if_neg (by decide), freezeLoop_all_pos 0 chunks _ h,
    Nat.zero_add, freezeLoop]
  by_cases hw : FREEZE_MIN_BYTES ≤ chunks.sum ∧ chunks.sum ≤ FREEZE_MAX_BYTES
  · simp [hw]
  · simp [hw]

/-- Witness for C1 at the four boundary totals: a stall at exactly 14336 or
25600 bytes is frozen, at 14335 or 25601 bytes it is not. -/
theorem c1_stall_window_witness :
    check_tls_freeze (.ok 200 (List.replicate 14 1024) .stallTimeout)
        = (true, 14336)
      ∧ check_tls_freeze (.ok 200 (1023 :: List.replicate 13 1024) .stallTimeout)
        = (false, 14335)
      ∧ check_tls_freeze (.ok 200 (List.replicate 25 1024) .stallTimeout)
        = (true, 25600)
      ∧ check_tls_freeze (.ok 200 (1 :: List.replicate 25 1024) .stallTimeout)
        = (false, 25601) :=
  ⟨(c1_stall_window (List.replicate 14 1024) (by decide)).trans (by decide),
   (c1_stall_window (1023 :: List.replicate 13 1024) (by decide)).trans (by decide),
   (c1_stall_window (List.replicate 25 1024) (by decide)).trans (by decide),
   (c1_stall_window (1 :: List.replicate 25 1024) (by decide)).trans (by decide)⟩

/-- Claim C3: `check_proxy` is a total function to `ProxyResult` (the Lean
embedding of "exactly one result, no escaping exception" — every `except`
branch of the source resolves to a `return`), and the outer exception mapping
holds: a connection-establishment timeout gives `TIMEOUT`, a proxy connection
failure gives `ERROR` carrying the cause text, any other `aiohttp` client
error gives `ERROR` carrying the cause text, and any other unexpected
exception gives `ERROR` with the generic unknown-error message. -/
theorem c3_exception_mapping (p : ProxyConfig) (rt tt : Rat) :
    check_proxy p (.raises .timeoutErr) rt tt
        = ⟨p.str, .TIMEOUT, none, none, some (.connectionTimeout tt), none⟩
      ∧ (∀ m, check_proxy p (.raises (.proxyConnErr m)) rt tt
        = ⟨p.str, .ERROR, none, none, some (.proxyConnectionError m), none⟩)
      ∧ (∀ m, check_proxy p (.raises (.clientErr m)) rt tt
        = ⟨p.str, .ERROR, none, none, some (.clientError m), none⟩)
      ∧ (∀ m, check_proxy p (.raises (.otherErr m)) rt tt
        = ⟨p.str, .ERROR, none, none, some (.unknownError m), none⟩) :=
  ⟨rfl, fun _ => rfl, fun _ => rfl, fun _ => rfl⟩

/-- Prepending endpoint outcomes on which the loop merely continues does not
change the stage-1 result. -/
lemma stage1Loop_append_continues (pre rest : List EndpointOutcome)
    (h : ∀ o ∈ pre, continuesB o = true) :
    stage1Loop (pre ++ rest) = stage1Loop rest := by
  induction pre with
  | nil => rfl
  | cons o os ih =>
    have ho : continuesB o = true := h o (List.mem_cons_self o os)
    have hos : ∀ x ∈ os, continuesB x = true :=
      fun x hx => h x (List.mem_cons_of_mem o hx)
    cases o with
    | exc => simpa [stage1Loop] using ih hos
    | resp status json =>
      cases json with
      | raises =>
        have h407 : status ≠ 407 := by
          simpa [continuesB, decide_eq_true_eq] using ho
        by_cases h200 : status = 200 <;>
          simp [stage1Loop, h407, h200, ih hos]
      | fields ip =>
        have hst : status ≠ 407 ∧ status ≠ 200 := by
          simpa [continuesB, decide_eq_true_eq] using ho
        simp [stage1Loop, hst.1, hst.2, ih hos]

/-- Claim C5: if every stage-1 endpoint attempted before some endpoint merely
continues the loop and that endpoint responds 407, the probe returns the
`AUTH_FAILED` result immediately — uniformly in the remaining endpoints and
in the stage-2 environment, so no fallback endpoint is attempted and stage 2
never runs. -/
theorem c5_auth_failed_immediate (p : ProxyConfig) (pre rest : List EndpointOutcome)
    (j : JsonOutcome) (s2 : Fetch2) (rt tt : Rat)
    (h : ∀ o ∈ pre, continuesB o = true) :
    check_proxy p (.runs (pre ++ .resp 407 j :: rest) s2) rt tt
      = ⟨p.str, .AUTH_FAILED, none, none, some .proxyAuthFailed, none⟩ := by
  have hs1 : stage1Loop (pre ++ .resp 407 j :: rest) = .authFailed := by
    rw [stage1Loop_append_continues pre _ h]
    simp [stage1Loop]
  simp [check_proxy, hs1]

/-- Witness for C5: first endpoint fails with an exception, second responds
407; the probe is `AUTH_FAILED` regardless of a pending stage-2 stream. -/
theorem c5_auth_failed_immediate_witness :
    check_proxy ⟨"proxy.example", 8080, "user", "pw"⟩
        (.runs ([.exc] ++ .resp 407 .raises
            :: [.resp 200 (.fields (some "1.2.3.4"))])
          (.ok 200 (List.replicate 20 1024) .stallTimeout)) 1 30
      = ⟨"proxy.example:8080", .AUTH_FAILED, none, none,
         some .proxyAuthFailed, none⟩ :=
  c5_auth_failed_immediate ⟨"proxy.example", 8080, "user", "pw"⟩ [.exc]
    [.resp 200 (.fields (some "1.2.3.4"))] .raises
    (.ok 200 (List.replicate 20 1024) .stallTimeout)
    1 30 (by decide)

/-- Claim C6: a non-timeout transport exception mid-stream (stage-2 ending
`excOther` after nonempty chunks) makes the detector report not frozen with
the accumulated partial total, and when stage 1 produced an IP the probe's
overall result is the plain `OK` result: stage-1 response time kept, no
freeze fields, no error message. -/
theorem c6_midstream_exception_ok (p : ProxyConfig) (ip : String)
    (s1 : List EndpointOutcome) (chunks : List Nat) (rt tt : Rat)
    (h1 : stage1Loop s1 = .finished (some ip)) (h : ∀ c ∈ chunks, c ≠ 0) :
    check_tls_freeze (.ok 200 chunks .excOther) = (false, chunks.sum)
      ∧ check_proxy p (.runs s1 (.ok 200 chunks .excOther)) rt tt
        = ⟨p.str, .OK, some rt, none, none, some ip⟩ := by
  have hdet : check_tls_freeze (.ok 200 chunks .excOther) = (false, chunks.sum) := by
    rw [check_tls_freeze, if_neg (by decide), freezeLoop_all_pos 0 chunks _ h,
      Nat.zero_add, freezeLoop]
  refine ⟨hdet, ?_⟩
  simp [check_proxy, h1, hdet]

/-- Witness for C6: stage 1 resolves an IP on the first endpoint, the stream
dies with a non-timeout exception after 3072 bytes; the result is `OK`. -/
theorem c6_midstream_exception_ok_witness :
    check_tls_freeze (.ok 200 [1024, 1024, 1024] .excOther) = (false, 3072)
      ∧ check_proxy ⟨"proxy.example", 3128, "u", "w"⟩
          (.runs [.resp 200 (.fields (some "5.6.7.8"))]
            (.ok 200 [1024, 1024, 1024] .excOther)) 2 30
        = ⟨"proxy.example:3128", .OK, some 2, none, none, some "5.6.7.8"⟩ :=
  c6_midstream_exception_ok ⟨"proxy.example", 3128, "u", "w"⟩ "5.6.7.8"
    [.resp 200 (.fields (some "5.6.7.8"))] [1024, 1024, 1024] 2 30
    (by decide) (by decide)

/-- Claim C10: a stage-2 response with an HTTP status other than 200 makes
the detector return `(false, 0)` uniformly in the body stream (so the body is
never read), and when stage 1 produced an IP the probe's overall result is
the plain `OK` result with no freeze fields. -/
theorem c10_non200_ok (p : ProxyConfig) (ip : String)
    (s1 : List EndpointOutcome) (status : Nat) (chunks : List Nat)
    (ending : StreamEnd) (rt tt : Rat)
    (h1 : stage1Loop s1 = .finished (some ip)) (hst : status ≠ 200) :
    check_tls_freeze (.ok status chunks ending) = (false, 0)
      ∧ check_proxy p (.runs s1 (.ok status chunks ending)) rt tt
        = ⟨p.str, .OK, some rt, none, none, some ip⟩ := by
  have hdet : check_tls_freeze (.ok status chunks ending) = (false, 0) := by
    rw [check_tls_freeze, if_pos hst]
  refine ⟨hdet, ?_⟩
  simp [check_proxy, h1, hdet]

/-- Witness for C10: a 404 on the freeze endpoint with an in-window body that
would have been frozen had it been read; the detector reports `(false, 0)`
and the probe is `OK`. -/
theorem c10_non200_ok_witness :
    check_tls_freeze (.ok 404 (List.replicate 20 1024) .stallTimeout) = (false, 0)
      ∧ check_proxy ⟨"proxy.example", 8000, "u", "w"⟩
          (.runs [.resp 200 (.fields (some "9.9.9.9"))]
            (.ok 404 (List.replicate 20 1024) .stallTimeout)) 1 30
        = ⟨"proxy.example:8000", .OK, some 1, none, none, some "9.9.9.9"⟩ :=
  c10_non200_ok ⟨"proxy.example", 8000, "u", "w"⟩ "9.9.9.9"
    [.resp 200 (.fields (some "9.9.9.9"))] 404 (List.replicate 20 1024)
    .stallTimeout 1 30 (by decide) (by decide)

/-- Counterexample to C2 as stated: the overall stage-2 deadline fires after
1024 bytes (outside the freeze window) on a probe whose stage 1 resolved an
IP; the claim says the result status is `TIMEOUT`, but the
`asyncio.TimeoutError` is caught inside `check_tls_freeze` (line 147), which
returns `(False, 1024)`, so `check_proxy` returns status `OK`. -/
theorem c2_overall_deadline_counterexample :
    (check_proxy ⟨"proxy.example", 8080, "u", "w"⟩
        (.runs [.resp 200 (.fields (some "1.2.3.4"))]
          (.ok 200 [1024] .overallTimeout)) 1 30).status
      ≠ ProxyStatus.TIMEOUT
      ∧ (check_proxy ⟨"proxy.example", 8080, "u", "w"⟩
          (.runs [.resp 200 (.fields (some "1.2.3.4"))]
            (.ok 200 [1024] .overallTimeout)) 1 30).status
        = ProxyStatus.OK := by
  refine ⟨?_, rfl⟩
  decide

/-- Claim C2 as amended: when the overall stage-2 deadline fires mid-stream
(ending `overallTimeout`, nonempty chunks, stage 1 resolved an IP), the probe
status is `TLS_FREEZE` if the accumulated total lies in the freeze window and
`OK` otherwise — not `TIMEOUT`, because the timeout is swallowed inside the
freeze checker. -/
theorem c2_overall_deadline_amended (p : ProxyConfig) (ip : String)
    (s1 : List EndpointOutcome) (chunks : List Nat) (rt tt : Rat)
    (h1 : stage1Loop s1 = .finished (some ip)) (h : ∀ c ∈ chunks, c ≠ 0) :
    (check_proxy p (.runs s1 (.ok 200 chunks .overallTimeout)) rt tt).status
      = if FREEZE_MIN_BYTES ≤ chunks.sum ∧ chunks.sum ≤ FREEZE_MAX_BYTES then
          ProxyStatus.TLS_FREEZE
        else
          ProxyStatus.OK := by
  have hdet : check_tls_freeze (.ok 200 chunks .overallTimeout)
      = if FREEZE_MIN_BYTES ≤ chunks.sum ∧ chunks.sum ≤ FREEZE_MAX_BYTES then
          (true, chunks.sum)
        else (false, chunks.sum) := by
    rw [check_tls_freeze, if_neg (by decide), freezeLoop_all_pos 0 chunks _ h,
      Nat.zero_add, freezeLoop]
  by_cases hw : FREEZE_MIN_BYTES ≤ chunks.sum ∧ chunks.sum ≤ FREEZE_MAX_BYTES
  · rw [if_pos hw] at hdet
    simp [check_proxy, h1, hdet, hw]
  · rw [if_neg hw] at hdet
    simp [check_proxy, h1, hdet, hw]

/-- Witness for the amended C2: the overall deadline fires at 20480 bytes
(inside the window) and the probe is classified `TLS_FREEZE`. -/
theorem c2_overall_deadline_amended_witness :
    (check_proxy ⟨"proxy.example", 8080, "u", "w"⟩
        (.runs [.resp 200 (.fields (some "1.2.3.4"))]
          (.ok 200 (List.replicate 20 1024) .overallTimeout)) 1 30).status
      = ProxyStatus.TLS_FREEZE :=
  (c2_overall_deadline_amended ⟨"proxy.example", 8080, "u", "w"⟩ "1.2.3.4"
      [.resp 200 (.fields (some "1.2.3.4"))] (List.replicate 20 1024) 1 30
      rfl (by decide)).trans (by decide)

/-- Indexed characterisation of the dispatcher loop. -/
lemma check_proxies_go_getElem (envOf : Nat → ProbeEnv) (rtOf : Nat → Rat)
    (tt : Rat) (ps : List ProxyConfig) (i j : Nat) :
    (check_proxies_go envOf rtOf tt i ps)[j]?
      = ps[j]?.map (fun p => check_proxy p (envOf (i + j)) (rtOf (i + j)) tt) := by
  induction ps generalizing i j with
  | nil => simp [check_proxies_go]
  | cons p ps ih =>
    cases j with
    | zero => simp [check_proxies_go]
    | succ j =>
      have := ih (i + 1) j
      simpa [check_proxies_go, Nat.add_assoc, Nat.add_comm 1 j] using this

/-- The dispatcher loop preserves length. -/
lemma check_proxies_go_length (envOf : Nat → ProbeEnv) (rtOf : Nat → Rat)
    (tt : Rat) (ps : List ProxyConfig) (i : Nat) :
    (check_proxies_go envOf rtOf tt i ps).length = ps.length := by
  induction ps generalizing i with
  | nil => rfl
  | cons p ps ih => simp [check_proxies_go, ih]

/-- Claim C4: the batch call returns exactly one `ProxyResult` per input
config — same length, and the result at each index is the probe result of the
input at that index (submission order preserved, no drops, no duplicates);
every failure is a `ProxyResult` value because `check_proxy` is total. -/
theorem c4_dispatcher_one_result_per_input (proxies : List ProxyConfig)
    (envOf : Nat → ProbeEnv) (rtOf : Nat → Rat) (tt : Rat) :
    (check_proxies proxies envOf rtOf tt).length = proxies.length
      ∧ ∀ i, (check_proxies proxies envOf rtOf tt)[i]?
        = proxies[i]?.map (fun p => check_proxy p (envOf i) (rtOf i) tt) := by
  refine ⟨check_proxies_go_length envOf rtOf tt proxies 0, fun i => ?_⟩
  simpa using check_proxies_go_getElem envOf rtOf tt proxies 0 i

/-- Claim C7: line parsing is a pure total function with the stated case
analysis — a blank or comment line yields no config and no diagnostic; a
4-field line whose port field parses as a Python integer yields exactly the
field-wise `ProxyConfig` with no diagnostic; a field count other than 4
yields no config and the format diagnostic; a 4-field line with a
non-numeric port yields no config and the port diagnostic.  Totality (never
raises) is the totality of `parse_proxy_line` itself. -/
theorem c7_parse_cases (line : String) :
    ((pyStrip line.toList = [] ∨ startsWithHash (pyStrip line.toList) = true) →
      parse_proxy_line line = (none, []))
      ∧ (∀ host portStr user pw n,
        ¬(pyStrip line.toList = [] ∨ startsWithHash (pyStrip line.toList) = true) →
        splitOnChar ':' (pyStrip line.toList) = [host, portStr, user, pw] →
        pyInt portStr = some n →
        parse_proxy_line line
          = (some ⟨String.mk host, n, String.mk user, String.mk pw⟩, []))
      ∧ (¬(pyStrip line.toList = [] ∨ startsWithHash (pyStrip line.toList) = true) →
        (splitOnChar ':' (pyStrip line.toList)).length ≠ 4 →
        parse_proxy_line line
          = (none,
             [String.mk ("Invalid proxy format: ".toList ++ pyStrip line.toList)]))
      ∧ (∀ host portStr user pw,
        ¬(pyStrip line.toList = [] ∨ startsWithHash (pyStrip line.toList) = true) →
        splitOnChar ':' (pyStrip line.toList) = [host, portStr, user, pw] →
        pyInt portStr = none →
        parse_proxy_line line
          = (none, [String.mk ("Invalid port: ".toList ++ portStr)])) := by
  refine ⟨fun hcond => ?_, fun host portStr user pw n hcond hsplit hport => ?_,
    fun hcond hlen => ?_, fun host portStr user pw hcond hsplit hport => ?_⟩
  · simp only [parse_proxy_line]
    rw [if_pos hcond]
  · simp only [parse_proxy_line]
    rw [if_neg hcond, hsplit]
    simp only [hport]
  · simp only [parse_proxy_line]
    rw [if_neg hcond]
    generalize hsp : splitOnChar ':' (pyStrip line.toList) = parts
    rw [hsp] at hlen
    rcases parts with _ | ⟨a, _ | ⟨b, _ | ⟨c, _ | ⟨d, _ | ⟨e, rest⟩⟩⟩⟩⟩ <;>
      first
        | rfl
        | exact absurd rfl hlen
  · simp only [parse_proxy_line]
    rw [if_neg hcond, hsplit]
    simp only [hport]

/-- Witness for C7 exercising all four cases at concrete lines: a comment
line, a valid line with surrounding whitespace, a 3-field line, and a
non-numeric port. -/
theorem c7_parse_cases_witness :
    parse_proxy_line "# comment" = (none, [])
      ∧ parse_proxy_line " host.example:8080:user:pw " =
        (some ⟨"host.example", 8080, "user", "pw"⟩, [])
      ∧ parse_proxy_line "host.example:8080:user" =
        (none, ["Invalid proxy format: host.example:8080:user"])
      ∧ parse_proxy_line "host.example:eighty:user:pw" =
        (none, ["Invalid port: eighty"]) := by
  refine ⟨(c7_parse_cases "# comment").1 (by decide), ?_, ?_, ?_⟩
  · exact ((c7_parse_cases " host.example:8080:user:pw ").2.1
      "host.example".toList "8080".toList "user".toList "pw".toList 8080
      (by decide) (by decide) (by decide)).trans (by decide)
  · exact ((c7_parse_cases "host.example:8080:user").2.2.1
      (by decide) (by decide)).trans (by decide)
  · exact ((c7_parse_cases "host.example:eighty:user:pw").2.2.2
      "host.example".toList "eighty".toList "user".toList "pw".toList
      (by decide) (by decide) (by decide)).trans (by decide)

/-- Counterexample to C8 as stated: the line `host:0:user:pw` parses
successfully to a `ProxyConfig` whose port is `0`, which is outside the
claimed range 1–65535 — `parse_proxy_line` performs no port-range check. -/
theorem c8_port_range_counterexample :
    parse_proxy_line "host:0:user:pw" = (some ⟨"host", 0, "user", "pw"⟩, [])
      ∧ ¬(1 ≤ (0 : Int) ∧ (0 : Int) ≤ 65535) := by
  refine ⟨?_, by decide⟩
  rfl

/-- Claim C8 as amended: the only constraint parsing places on the port is
that the port field parses as a Python integer — every successfully parsed
config arises from a 4-field split whose port field `int()`-parses to exactly
the stored (unrestricted) port, with no diagnostic; no range check is
applied. -/
theorem c8_port_unvalidated_amended (line : String) (cfg : ProxyConfig)
    (ds : List String) (h : parse_proxy_line line = (some cfg, ds)) :
    ∃ host portStr user pw,
      splitOnChar ':' (pyStrip line.toList) = [host, portStr, user, pw]
        ∧ pyInt portStr = some cfg.port
        ∧ cfg.host = String.mk host ∧ cfg.username = String.mk user
        ∧ cfg.password = String.mk pw ∧ ds = [] := by
  simp only [parse_proxy_line] at h
  split at h
  · simp at h
  · split at h
    · rename_i host portStr user pw heq
      split at h
      · rename_i port hport
        obtain ⟨h1, h2⟩ := Prod.mk.inj h
        obtain h3 := Option.some.inj h1
        subst h3
        subst h2
        exact ⟨host, portStr, user, pw, heq, hport, rfl, rfl, rfl, rfl⟩
      · simp at h
    · simp at h

/-- Witness for the amended C8: applying the inversion to the parse of
`host:70000:user:pw`, whose stored port 70000 exceeds 65535. -/
theorem c8_port_unvalidated_amended_witness :
    ∃ host portStr user pw,
      splitOnChar ':' (pyStrip "host:70000:user:pw".toList)
          = [host, portStr, user, pw]
        ∧ pyInt portStr = some (⟨"host", 70000, "user", "pw"⟩ : ProxyConfig).port
        ∧ (⟨"host", 70000, "user", "pw"⟩ : ProxyConfig).host = String.mk host
        ∧ (⟨"host", 70000, "user", "pw"⟩ : ProxyConfig).username = String.mk user
        ∧ (⟨"host", 70000, "user", "pw"⟩ : ProxyConfig).password = String.mk pw
        ∧ ([] : List String) = [] :=
  c8_port_unvalidated_amended "host:70000:user:pw"
    ⟨"host", 70000, "user", "pw"⟩ [] rfl

/-- In-flight count of a cons cell. -/
lemma runningCount_cons (t : TaskPhase) (ts : List TaskPhase) :
    runningCount (t :: ts)
      = (if t = TaskPhase.running then 1 else 0) + runningCount ts := by
  by_cases h : t = TaskPhase.running <;>
    simp [runningCount, List.filter_cons, h, Nat.add_comm]

/-- Updating one task's phase shifts the in-flight count by the phase bits. -/
lemma runningCount_set (ts : List TaskPhase) (i : Nat) (v old : TaskPhase)
    (h : ts[i]? = some old) :
    runningCount (ts.set i v) + (if old = TaskPhase.running then 1 else 0)
      = runningCount ts + (if v = TaskPhase.running then 1 else 0) := by
  induction ts generalizing i with
  | nil => simp at h
  | cons t ts ih =>
    cases i with
    | zero =>
      obtain rfl : t = old := by simpa using h
      by_cases hv : v = TaskPhase.running <;>
        by_cases ho : t = TaskPhase.running <;>
          simp [List.set, runningCount_cons, hv, ho] <;> omega
    | succ i =>
      have h' : ts[i]? = some old := by simpa using h
      have hih := ih i h'
      by_cases ht : t = TaskPhase.running <;>
        simp [List.set, runningCount_cons, ht] <;> omega

/-- One transition preserves the gate invariant: permits held plus permits
available equals the configured capacity. -/
lemma stepSched_inv {n : Nat} {s s2 : SchedState} {a : SchedStep}
    (h : stepSched s a = some s2)
    (hinv : runningCount s.tasks + s.available = n) :
    runningCount s2.tasks + s2.available = n := by
  cases a with
  | acquire i =>
    simp only [stepSched] at h
    cases htask : s.tasks[i]? with
    | none => rw [htask] at h; exact absurd h (by simp)
    | some ph =>
      rw [htask] at h
      cases ph with
      | pending =>
        by_cases ha : s.available = 0
        · rw [if_pos ha] at h; exact absurd h (by simp)
        · rw [if_neg ha] at h
          obtain rfl := Option.some.inj h
          have hset := runningCount_set s.tasks i .running .pending htask
          simp at hset
          dsimp only
          omega
      | running => exact absurd h (by simp)
      | done => exact absurd h (by simp)
  | release i =>
    simp only [stepSched] at h
    cases htask : s.tasks[i]? with
    | none => rw [htask] at h; exact absurd h (by simp)
    | some ph =>
      rw [htask] at h
      cases ph with
      | pending => exact absurd h (by simp)
      | running =>
        obtain rfl := Option.some.inj h
        have hset := runningCount_set s.tasks i .done .running htask
        simp at hset
        dsimp only
        omega
      | done => exact absurd h (by simp)

/-- Any event sequence from a state satisfying the gate invariant ends in a
state satisfying it. -/
lemma runSched_inv {n : Nat} (steps : List SchedStep) (s s2 : SchedState)
    (h : runSched s steps = some s2)
    (hinv : runningCount s.tasks + s.available = n) :
    runningCount s2.tasks + s2.available = n := by
  induction steps generalizing s with
  | nil =>
    obtain rfl := Option.some.inj h
    exact hinv
  | cons a rest ih =>
    simp only [runSched] at h
    cases hs : stepSched s a with
    | none => rw [hs] at h; exact absurd h (by simp)
    | some s1 => rw [hs] at h; exact ih s1 h (stepSched_inv hs hinv)

/-- No probe is in flight initially. -/
lemma runningCount_initSched (n k : Nat) :
    runningCount (initSched n k).tasks = 0 := by
  induction k with
  | zero => rfl
  | succ k ih =>
    simpa [initSched, List.replicate, runningCount_cons] using ih

/-- Claim C9: under the admission gate, every state reachable from the
initial batch state by any sequence of acquire/release events has at most `n`
probes in flight (acquire before start, release after finish, whatever the
outcome), and with the cap set to 1 at most one probe is ever in flight
(effectively sequential execution). -/
theorem c9_concurrency_cap (n k : Nat) (steps : List SchedStep) (s : SchedState)
    (h : runSched (initSched n k) steps = some s) :
    runningCount s.tasks ≤ n ∧ (n = 1 → runningCount s.tasks ≤ 1) := by
  have hinit : runningCount (initSched n k).tasks + (initSched n k).available = n := by
    rw [runningCount_initSched]
    simp [initSched]
  have hinv := runSched_inv steps _ s h hinit
  exact ⟨by omega, fun h1 => by omega⟩

/-- Witness for C9: a batch of 3 probes under cap 2 with an interleaved
acquire/release trace; the final state has 2 probes in flight, within the
cap. -/
theorem c9_concurrency_cap_witness :
    runningCount
        ((⟨0, [TaskPhase.done, TaskPhase.running, TaskPhase.running]⟩ :
          SchedState).tasks) ≤ 2
      ∧ (2 = 1 →
        runningCount
          ((⟨0, [TaskPhase.done, TaskPhase.running, TaskPhase.running]⟩ :
            SchedState).tasks) ≤ 1) :=
  c9_concurrency_cap 2 3 [.acquire 0, .acquire 1, .release 0, .acquire 2]
    ⟨0, [.done, .running, .running]⟩ rfl

end ProxyChecker
